import Mathlib

/-!
Shallow embedding of `src/cloudflare-api.ts`: a thin Cloudflare custom-hostname
client with three operations (`createCustomHostname`, `getCustomHostnameStatus`,
`deleteCustomHostname`).  JavaScript values appearing in JSON positions are
modelled by the `Json` type below (with an explicit `undefined` for JavaScript's
`undefined`), JavaScript truthiness by `jsTruthy`, property access (which throws
a TypeError on `null`/`undefined`) by `jsGet` returning `Except`, and the
transport (`fetch`) by an arbitrary function from requests to fetch outcomes.
Each operation is split into its `try`-block body (which may end in `.threw`,
an uncaught failure) and the exported function, which applies the source's
`catch` clause.  Every function also reports the list of network requests it
issued, in order.
-/

/-- A JavaScript value in a JSON position, with `undefined` for `undefined`. -/
inductive Json where
  | undefined : Json
  | null : Json
  | bool : Bool → Json
  | num : Int → Json
  | str : String → Json
  | arr : List Json → Json
  | obj : List (String × Json) → Json
deriving Repr

/-- JavaScript truthiness of a value. -/
def jsTruthy : Json → Bool
  | .undefined => false
  | .null => false
  | .bool b => b
  | .num n => n != 0
  | .str s => !s.isEmpty
  | .arr _ => true
  | .obj _ => true

/-- JavaScript property access `v[k]`: throws a TypeError on `null`/`undefined`,
yields `undefined` for a missing key, and models the built-in `length` of
strings and arrays. -/
def jsGet : Json → String → Except Unit Json
  | .undefined, _ => .error ()
  | .null, _ => .error ()
  | .obj fs, k => .ok ((fs.lookup k).getD .undefined)
  | .str s, k => .ok (if k = "length" then .num s.length else .undefined)
  | .arr xs, k => .ok (if k = "length" then .num xs.length else .undefined)
  | _, _ => .ok .undefined

/-- Total variant of `jsGet`, collapsing a thrown access to `undefined`
(used only to state theorems; agrees with `jsGet` whenever that succeeds). -/
def jsFieldD (j : Json) (k : String) : Json :=
  match jsGet j k with
  | .ok v => v
  | .error _ => .undefined

/-- Raw field lookup in an object literal's field list (`undefined` when the
key is missing); `jsGet` on an object reduces to this. -/
def objGet (fields : List (String × Json)) (k : String) : Json :=
  (fields.lookup k).getD .undefined

/-- JavaScript numeric indexing `v[i]` for a natural literal index. -/
def jsIndex : Json → Nat → Except Unit Json
  | .undefined, _ => .error ()
  | .null, _ => .error ()
  | .arr xs, i => .ok ((xs.get? i).getD .undefined)
  | .str s, i => .ok ((s.data.get? i).elim Json.undefined (fun c => .str (String.mk [c])))
  | _, _ => .ok .undefined

/-- JavaScript `a || b`. -/
def jsOr (a b : Json) : Json :=
  if jsTruthy a then a else b

/-- JavaScript strict equality test `v === 0`. -/
def jsIsZero : Json → Bool
  | .num n => n == 0
  | _ => false

mutual
/-- JavaScript string coercion, as used by template literals. -/
def jsToString : Json → String
  | .undefined => "undefined"
  | .null => "null"
  | .bool b => if b then "true" else "false"
  | .num n => toString n
  | .str s => s
  | .arr xs => String.intercalate "," (jsToStringList xs)
  | .obj _ => "[object Object]"

def jsToStringList : List Json → List String
  | [] => []
  | x :: xs => jsToString x :: jsToStringList xs
end

/-- The environment bindings used by `cloudflare-api.ts`; `none` models an
absent variable, `some ""` an empty one. -/
structure Env where
  CLOUDFLARE_ZONE_ID : Option String
  DISPATCH_NAMESPACE_API_TOKEN : Option String

/-- Truthiness of an optional string environment binding (`undefined` and the
empty string are falsy). -/
def optTruthy : Option String → Bool
  | none => false
  | some s => !s.isEmpty

/-- Template-literal rendering of an optional string (JavaScript renders
`undefined` as the text "undefined"). -/
def optStr : Option String → String
  | none => "undefined"
  | some s => s

/-- `getAuthHeaders` from the source: headers keyed on the token alone. -/
def getAuthHeaders (env : Env) : List (String × String) :=
  if optTruthy env.DISPATCH_NAMESPACE_API_TOKEN then
    [("Authorization", "Bearer " ++ optStr env.DISPATCH_NAMESPACE_API_TOKEN),
     ("Content-Type", "application/json")]
  else
    []

/-- `isApiConfigured` from the source: both bindings truthy. -/
def isApiConfigured (env : Env) : Bool :=
  optTruthy env.CLOUDFLARE_ZONE_ID && optTruthy env.DISPATCH_NAMESPACE_API_TOKEN

/-- An HTTP request as issued by the client: URL, method, headers, and (for
POST) the structured JSON body passed to `JSON.stringify`. -/
structure Request where
  url : String
  method : String
  headers : List (String × String)
  body : Option Json

/-- Behaviour of one `fetch` call: a thrown transport error, or a response
with an HTTP success flag (`response.ok`) and the result of `response.json()`
(`none` when the body fails to parse, i.e. `json()` throws). -/
inductive FetchResult where
  | thrown : FetchResult
  | resp : Bool → Option Json → FetchResult

/-- A transport: the behaviour of `fetch` on every possible request. -/
def Transport : Type := Request → FetchResult

/-- Outcome of a function body: a normal return, or an uncaught thrown error;
either way the list of network requests issued so far is recorded. -/
inductive Outcome (α : Type) where
  | ret : α → List Request → Outcome α
  | threw : List Request → Outcome α

def apiBase : String := "https://api.cloudflare.com/client/v4/zones/"

/-- The template-literal zone segment `${env.CLOUDFLARE_ZONE_ID}`. -/
def zoneStr (env : Env) : String := optStr env.CLOUDFLARE_ZONE_ID

/-- The fixed SSL policy payload sent by `createCustomHostname`. -/
def createPayload (hostname : String) : Json :=
  .obj [("hostname", .str hostname),
        ("ssl", .obj [("method", .str "http"),
                      ("type", .str "dv"),
                      ("settings", .obj [("http2", .str "on"),
                                         ("min_tls_version", .str "1.2"),
                                         ("tls_1_3", .str "on")])])]

/-- The POST request of `createCustomHostname`. -/
def createRequest (env : Env) (hostname : String) : Request :=
  { url := apiBase ++ zoneStr env ++ "/custom_hostnames",
    method := "POST",
    headers := getAuthHeaders env,
    body := some (createPayload hostname) }

/-- The GET lookup request shared by `getCustomHostnameStatus` and
`deleteCustomHostname`: the hostname is concatenated into the query string
verbatim. -/
def lookupRequest (env : Env) (hostname : String) : Request :=
  { url := apiBase ++ zoneStr env ++ "/custom_hostnames?hostname=" ++ hostname,
    method := "GET",
    headers := getAuthHeaders env,
    body := none }

/-- The DELETE request of `deleteCustomHostname`, addressed by the id value
taken from the first looked-up record (rendered by template literal). -/
def deleteRequest (env : Env) (idv : Json) : Request :=
  { url := apiBase ++ zoneStr env ++ "/custom_hostnames/" ++ jsToString idv,
    method := "DELETE",
    headers := getAuthHeaders env,
    body := none }

/-- Body of the `try` block of `createCustomHostname`. -/
def createTry (f : Transport) (env : Env) (hostname : String) : Outcome Bool :=
  let req := createRequest env hostname
  match f req with
  | .thrown => .threw [req]
  | .resp ok _ => .ret ok [req]

/-- `createCustomHostname` from the source: configuration gate, then the
`try` body with its `catch` clause collapsing any throw to `false`. -/
def createCustomHostname (f : Transport) (env : Env) (hostname : String) :
    Outcome Bool :=
  if isApiConfigured env then
    match createTry f env hostname with
    | .threw reqs => .ret false reqs
    | .ret b reqs => .ret b reqs
  else
    .ret false []

/-- The SSL sub-object of a projected status (fields hold raw JSON values,
copied or defaulted exactly as the source does). -/
structure SslInfo where
  status : Json
  validation_method : Json
  validation_errors : Json
  validation_records : Json
deriving Repr

/-- The `CustomHostnameStatus` result shape; `none` in an optional field means
the field is absent from the returned object. -/
structure CustomHostnameStatus where
  status : Json
  ssl : Option SslInfo
  verification_errors : Option Json
deriving Repr

def notConfiguredStatus : CustomHostnameStatus :=
  { status := .str "error", ssl := none,
    verification_errors := some (.arr [.str "API not configured"]) }

def netErrorStatus : CustomHostnameStatus :=
  { status := .str "error", ssl := none,
    verification_errors := some (.arr [.str "Network error"]) }

def apiFailedStatus : CustomHostnameStatus :=
  { status := .str "error", ssl := none,
    verification_errors := some (.arr [.str "API request failed"]) }

def notFoundStatus : CustomHostnameStatus :=
  { status := .str "not_found", ssl := none, verification_errors := none }

/-- The ternary `hostnameData.ssl ? {...} : undefined` of the source: an SSL
sub-object is built iff the record's `ssl` value is truthy, with
`validation_method` from `method || validation_method` and the two sequences
defaulted with `|| []`.  Property accesses may throw (`Except.error`). -/
def projectSsl (sslv : Json) : Except Unit (Option SslInfo) :=
  if jsTruthy sslv then
    match jsGet sslv "status", jsGet sslv "method", jsGet sslv "validation_method",
          jsGet sslv "validation_errors", jsGet sslv "validation_records" with
    | .ok s, .ok m, .ok vm, .ok ve, .ok vr =>
        .ok (some { status := s,
                    validation_method := jsOr m vm,
                    validation_errors := jsOr ve (.arr []),
                    validation_records := jsOr vr (.arr []) })
    | _, _, _, _, _ => .error ()
  else
    .ok none

/-- Projection of the first looked-up record, as in the source's final
`return` object literal: `status` copied verbatim, the SSL ternary, and
`verification_errors` defaulted with `|| []`. -/
def projectRecord (hd : Json) : Except Unit CustomHostnameStatus :=
  match jsGet hd "status" with
  | .error e => .error e
  | .ok st =>
    match jsGet hd "ssl" with
    | .error e => .error e
    | .ok sslv =>
      match projectSsl sslv with
      | .error e => .error e
      | .ok ssl =>
        match jsGet hd "verification_errors" with
        | .error e => .error e
        | .ok verr =>
          .ok { status := st, ssl := ssl,
                verification_errors := some (jsOr verr (.arr [])) }

/-- Body of the `try` block of `getCustomHostnameStatus`.  Note the source
awaits `response.json()` before testing `response.ok`. -/
def statusTry (f : Transport) (env : Env) (hostname : String) :
    Outcome CustomHostnameStatus :=
  let req := lookupRequest env hostname
  match f req with
  | .thrown => .threw [req]
  | .resp ok body =>
    match body with
    | none => .threw [req]
    | some result =>
      if !ok then .ret apiFailedStatus [req]
      else
        match jsGet result "result" with
        | .error _ => .threw [req]
        | .ok rr =>
          if !jsTruthy rr then .ret notFoundStatus [req]
          else
            match jsGet rr "length" with
            | .error _ => .threw [req]
            | .ok lv =>
              if jsIsZero lv then .ret notFoundStatus [req]
              else
                match jsIndex rr 0 with
                | .error _ => .threw [req]
                | .ok hd =>
                  match projectRecord hd with
                  | .error _ => .threw [req]
                  | .ok st => .ret st [req]

/-- `getCustomHostnameStatus` from the source: configuration gate, then the
`try` body with its `catch` clause producing the "Network error" status. -/
def getCustomHostnameStatus (f : Transport) (env : Env) (hostname : String) :
    Outcome CustomHostnameStatus :=
  if isApiConfigured env then
    match statusTry f env hostname with
    | .threw reqs => .ret netErrorStatus reqs
    | .ret st reqs => .ret st reqs
  else
    .ret notConfiguredStatus []

/-- Body of the `try` block of `deleteCustomHostname`: lookup, short-circuit
test `!ok || !result || result.length === 0`, then DELETE by the first
record's id. -/
def deleteTry (f : Transport) (env : Env) (hostname : String) : Outcome Bool :=
  let req1 := lookupRequest env hostname
  match f req1 with
  | .thrown => .threw [req1]
  | .resp ok body =>
    match body with
    | none => .threw [req1]
    | some listResult =>
      if !ok then .ret false [req1]
      else
        match jsGet listResult "result" with
        | .error _ => .threw [req1]
        | .ok rr =>
          if !jsTruthy rr then .ret false [req1]
          else
            match jsGet rr "length" with
            | .error _ => .threw [req1]
            | .ok lv =>
              if jsIsZero lv then .ret false [req1]
              else
                match jsIndex rr 0 with
                | .error _ => .threw [req1]
                | .ok first =>
                  match jsGet first "id" with
                  | .error _ => .threw [req1]
                  | .ok idv =>
                    let req2 := deleteRequest env idv
                    match f req2 with
                    | .thrown => .threw [req1, req2]
                    | .resp ok2 _ => .ret ok2 [req1, req2]

/-- `deleteCustomHostname` from the source: configuration gate, then the
`try` body with its `catch` clause collapsing any throw to `false`. -/
def deleteCustomHostname (f : Transport) (env : Env) (hostname : String) :
    Outcome Bool :=
  if isApiConfigured env then
    match deleteTry f env hostname with
    | .threw reqs => .ret false reqs
    | .ret b reqs => .ret b reqs
  else
    .ret false []

/-- Did the call return normally (as opposed to an uncaught throw)? -/
def Outcome.isRet {α : Type} : Outcome α → Bool
  | .ret _ _ => true
  | .threw _ => false

/-- The network requests issued during the call, in order. -/
def Outcome.reqs {α : Type} : Outcome α → List Request
  | .ret _ r => r
  | .threw r => r

/-- The returned value, if any. -/
def Outcome.val {α : Type} : Outcome α → Option α
  | .ret a _ => some a
  | .threw _ => none

/-- Property access on a truthy value never throws and agrees with the total
field reader. -/
lemma jsGet_eq_ok_of_truthy (v : Json) (k : String) (h : jsTruthy v = true) :
    jsGet v k = .ok (jsFieldD v k) := by
  cases v <;> first | rfl | simp [jsTruthy] at h

/-- When configured, `createCustomHostname` returns normally and issues exactly
its POST request. -/
lemma createShape (f : Transport) (env : Env) (hostname : String)
    (hc : isApiConfigured env = true) :
    ∃ b, createCustomHostname f env hostname =
      .ret b [createRequest env hostname] := by
  unfold createCustomHostname createTry
  simp only [hc, if_true]
  cases f (createRequest env hostname) <;> exact ⟨_, rfl⟩

/-- The `try` body of `getCustomHostnameStatus` issues exactly the lookup
request, whatever the transport does. -/
lemma statusTryReqs (f : Transport) (env : Env) (hostname : String) :
    (statusTry f env hostname).reqs = [lookupRequest env hostname] := by
  simp only [statusTry]
  repeat' split
  all_goals rfl

/-- When configured, `getCustomHostnameStatus` returns normally and issues
exactly the lookup request. -/
lemma statusShape (f : Transport) (env : Env) (hostname : String)
    (hc : isApiConfigured env = true) :
    ∃ st, getCustomHostnameStatus f env hostname =
      .ret st [lookupRequest env hostname] := by
  unfold getCustomHostnameStatus
  simp only [hc, if_true]
  have hr := statusTryReqs f env hostname
  cases h : statusTry f env hostname <;> rw [h] at hr <;>
    simp only [Outcome.reqs] at hr <;> subst hr <;> exact ⟨_, rfl⟩

/-- The `try` body of `deleteCustomHostname` always issues the lookup request
first. -/
lemma deleteTryReqsHead (f : Transport) (env : Env) (hostname : String) :
    (deleteTry f env hostname).reqs.head? = some (lookupRequest env hostname) := by
  simp only [deleteTry]
  repeat' split
  all_goals rfl

/-- When configured, `deleteCustomHostname` returns normally, with the lookup
request first in its request list. -/
lemma deleteShape (f : Transport) (env : Env) (hostname : String)
    (hc : isApiConfigured env = true) :
    ∃ b reqs, deleteCustomHostname f env hostname = .ret b reqs ∧
      reqs.head? = some (lookupRequest env hostname) := by
  unfold deleteCustomHostname
  simp only [hc, if_true]
  have hr := deleteTryReqsHead f env hostname
  cases h : deleteTry f env hostname <;> rw [h] at hr <;>
    simp only [Outcome.reqs] at hr <;> exact ⟨_, _, rfl, hr⟩

/-! Concrete fixtures used by witnesses and counterexamples. -/

def env0 : Env := ⟨some "zone1", some "tok"⟩

def env1 : Env := ⟨none, some "tok"⟩

def alwaysThrown : Transport := fun _ => .thrown

def failNoBody : Transport := fun _ => .resp false none

def failNullBody : Transport := fun _ => .resp false (some .null)

def okNoBody : Transport := fun _ => .resp true none

def sampleFields : List (String × Json) :=
  [("id", .str "x"), ("status", .str "pending"),
   ("ssl", .obj [("status", .str "pending_validation"), ("method", .str "http")])]

def sampleBody : Json := .obj [("result", .arr [.obj sampleFields])]

def sampleTransport : Transport := fun _ => .resp true (some sampleBody)

def emptyResultTransport : Transport := fun _ => .resp true (some (.obj [("result", .arr [])]))

def twoRecordBody : Json :=
  .obj [("result", .arr [.obj [("id", .str "a")], .obj [("id", .str "b")]])]

def twoRecordTransport : Transport :=
  fun r => if r.method = "GET" then .resp true (some twoRecordBody) else .resp true none

def oneRecordBody : Json := .obj [("result", .arr [.obj [("id", .str "a")]])]

def oneRecordTransport : Transport :=
  fun r => if r.method = "GET" then .resp true (some oneRecordBody) else .resp true none

def remoteNotFoundBody : Json :=
  .obj [("result", .arr [.obj [("status", .str "not_found"),
                               ("ssl", .obj [("status", .str "x")])]])]

def remoteNotFoundTransport : Transport := fun _ => .resp true (some remoteNotFoundBody)

/-- C1: every operation terminates with a normal value of its declared result
type for every configuration, hostname and transport behaviour (including a
thrown transport error at any network call and a response body that fails to
parse as JSON): no uncaught failure ever reaches the caller. -/
theorem c1_operations_never_throw (f : Transport) (env : Env) (hostname : String) :
    (createCustomHostname f env hostname).isRet = true ∧
    (getCustomHostnameStatus f env hostname).isRet = true ∧
    (deleteCustomHostname f env hostname).isRet = true := by
  refine ⟨?_, ?_, ?_⟩ <;> by_cases hc : isApiConfigured env = true
  · obtain ⟨b, hb⟩ := createShape f env hostname hc
    rw [hb]; rfl
  · simp only [createCustomHostname, hc, if_false, Bool.false_eq_true]; rfl
  · obtain ⟨st, hst⟩ := statusShape f env hostname hc
    rw [hst]; rfl
  · simp only [getCustomHostnameStatus, hc, if_false, Bool.false_eq_true]; rfl
  · obtain ⟨b, reqs, hb, _⟩ := deleteShape f env hostname hc
    rw [hb]; rfl
  · simp only [deleteCustomHostname, hc, if_false, Bool.false_eq_true]; rfl

/-- C2: when the zone identifier or the token is empty or absent, each
operation makes no network call and returns its documented unconfigured
result. -/
theorem c2_unconfigured_no_network (f : Transport) (env : Env) (hostname : String)
    (h : optTruthy env.CLOUDFLARE_ZONE_ID = false ∨
         optTruthy env.DISPATCH_NAMESPACE_API_TOKEN = false) :
    createCustomHostname f env hostname = .ret false [] ∧
    getCustomHostnameStatus f env hostname = .ret notConfiguredStatus [] ∧
    deleteCustomHostname f env hostname = .ret false [] := by
  have hc : isApiConfigured env = false := by
    unfold isApiConfigured
    rcases h with h | h <;> simp [h]
  constructor
  · simp [createCustomHostname, hc]
  constructor
  · simp [getCustomHostnameStatus, hc]
  · simp [deleteCustomHostname, hc]

/-- Witness for C2 at a concrete unconfigured environment (token absent) and a
transport that would throw if it were ever called. -/
theorem c2_unconfigured_no_network_witness :
    createCustomHostname alwaysThrown ⟨some "z", none⟩ "h.example" = .ret false [] ∧
    getCustomHostnameStatus alwaysThrown ⟨some "z", none⟩ "h.example" =
      .ret notConfiguredStatus [] ∧
    deleteCustomHostname alwaysThrown ⟨some "z", none⟩ "h.example" = .ret false [] :=
  c2_unconfigured_no_network alwaysThrown ⟨some "z", none⟩ "h.example" (Or.inr rfl)

/-- C8 counterexample: with a token but no zone identifier the client is not
configured, yet `getAuthHeaders` is not empty — it still carries the bearer
token, contradicting the claim that an unconfigured client gets an empty
header set. -/
theorem c8_counterexample_token_without_zone :
    isApiConfigured env1 = false ∧
    getAuthHeaders env1 =
      [("Authorization", "Bearer tok"), ("Content-Type", "application/json")] ∧
    getAuthHeaders env1 ≠ [] := by
  refine ⟨rfl, rfl, ?_⟩
  have h : getAuthHeaders env1 =
      [("Authorization", "Bearer tok"), ("Content-Type", "application/json")] := rfl
  rw [h]
  simp

/-- C8 amended: the auth header set is keyed on the token alone — it is the
full `Authorization`/`Content-Type` pair iff the token is non-empty (in
particular whenever the client is configured), and empty iff the token is
empty or absent, regardless of the zone identifier. -/
theorem c8_auth_headers_keyed_on_token (env : Env) :
    (optTruthy env.DISPATCH_NAMESPACE_API_TOKEN = true →
      getAuthHeaders env =
        [("Authorization", "Bearer " ++ optStr env.DISPATCH_NAMESPACE_API_TOKEN),
         ("Content-Type", "application/json")]) ∧
    (optTruthy env.DISPATCH_NAMESPACE_API_TOKEN = false →
      getAuthHeaders env = []) ∧
    (isApiConfigured env = true →
      getAuthHeaders env =
        [("Authorization", "Bearer " ++ optStr env.DISPATCH_NAMESPACE_API_TOKEN),
         ("Content-Type", "application/json")]) := by
  refine ⟨fun h => ?_, fun h => ?_, fun h => ?_⟩
  · simp [getAuthHeaders, h]
  · simp [getAuthHeaders, h]
  · have ht : optTruthy env.DISPATCH_NAMESPACE_API_TOKEN = true := by
      unfold isApiConfigured at h
      exact (Bool.and_eq_true _ _ |>.mp h).2
    simp [getAuthHeaders, ht]

/-- Witness for C8 amended, at the configured fixture environment. -/
theorem c8_auth_headers_keyed_on_token_witness :
    getAuthHeaders env0 =
      [("Authorization", "Bearer " ++ optStr (some "tok")),
       ("Content-Type", "application/json")] :=
  (c8_auth_headers_keyed_on_token env0).1 rfl

/-- C3: for a configured client, `createCustomHostname` returns `true` iff the
single POST receives an HTTP success status; it returns `false` for an
unconfigured client, for a non-success status, and for a thrown transport
error. -/
theorem c3_create_true_iff_ok (f : Transport) (env : Env) (hostname : String) :
    (isApiConfigured env = false →
      createCustomHostname f env hostname = .ret false []) ∧
    (isApiConfigured env = true →
      ((createCustomHostname f env hostname =
          .ret true [createRequest env hostname]) ↔
        (∃ b, f (createRequest env hostname) = .resp true b)) ∧
      (f (createRequest env hostname) = .thrown →
        createCustomHostname f env hostname =
          .ret false [createRequest env hostname]) ∧
      (∀ b, f (createRequest env hostname) = .resp false b →
        createCustomHostname f env hostname =
          .ret false [createRequest env hostname])) := by
  constructor
  · intro hc
    simp [createCustomHostname, hc]
  · intro hc
    refine ⟨⟨?_, ?_⟩, fun ht => ?_, fun b hb => ?_⟩
    · intro h
      unfold createCustomHostname createTry at h
      simp only [hc, if_true] at h
      cases hfr : f (createRequest env hostname) with
      | thrown =>
        rw [hfr] at h
        simp at h
      | resp ok b =>
        rw [hfr] at h
        simp only [Outcome.ret.injEq] at h
        obtain ⟨hok, -⟩ := h
        subst hok
        exact ⟨b, rfl⟩
    · rintro ⟨b, hb⟩
      unfold createCustomHostname createTry
      simp [hc, hb]
    · unfold createCustomHostname createTry
      simp [hc, ht]
    · unfold createCustomHostname createTry
      simp [hc, hb]

/-- Witness for C3: a configured client whose transport answers the POST with
HTTP success yields `true`. -/
theorem c3_create_true_iff_ok_witness :
    createCustomHostname okNoBody env0 "w.example" =
      .ret true [createRequest env0 "w.example"] :=
  ((c3_create_true_iff_ok okNoBody env0 "w.example").2 rfl).1.mpr ⟨none, rfl⟩

/-- C7: for a configured client, a successful lookup whose `result` list is
empty (or whose `result` field is missing) yields exactly
`{status: "not_found"}`, with the `ssl` and `verification_errors` fields
absent. -/
theorem c7_empty_result_not_found (f : Transport) (env : Env) (hostname : String)
    (body : Json)
    (hc : isApiConfigured env = true)
    (hf : f (lookupRequest env hostname) = .resp true (some body))
    (hr : jsGet body "result" = .ok (.arr []) ∨ jsGet body "result" = .ok .undefined) :
    getCustomHostnameStatus f env hostname =
      .ret notFoundStatus [lookupRequest env hostname] ∧
    notFoundStatus.ssl = none ∧ notFoundStatus.verification_errors = none := by
  refine ⟨?_, rfl, rfl⟩
  unfold getCustomHostnameStatus statusTry
  simp only [hc, if_true]
  have h1 : jsGet (Json.arr []) "length" = .ok (.num 0) := rfl
  have h2 : jsIsZero (Json.num 0) = true := rfl
  have h3 : jsTruthy (Json.arr []) = true := rfl
  have h4 : jsTruthy Json.undefined = false := rfl
  rcases hr with hr | hr <;> simp [hf, hr, h1, h2, h3, h4]

/-- Witness for C7 at a concrete transport answering with an empty `result`
list. -/
theorem c7_empty_result_not_found_witness :
    getCustomHostnameStatus emptyResultTransport env0 "e.example" =
      .ret notFoundStatus [lookupRequest env0 "e.example"] ∧
    notFoundStatus.ssl = none ∧ notFoundStatus.verification_errors = none :=
  c7_empty_result_not_found emptyResultTransport env0 "e.example"
    (.obj [("result", .arr [])]) rfl rfl (Or.inl rfl)

/-- C4 counterexample: the source awaits `response.json()` before testing
`response.ok`, so a non-success response whose body fails to parse as JSON
yields the "Network error" status, not "API request failed" — refuting both
the claim's unconditional non-success mapping and its "Network error exactly
on transport failure" direction. -/
theorem c4_counterexample_unparseable_error_body :
    getCustomHostnameStatus failNoBody env0 "app.example" =
      .ret netErrorStatus [lookupRequest env0 "app.example"] ∧
    netErrorStatus ≠ apiFailedStatus := by
  refine ⟨rfl, ?_⟩
  simp [netErrorStatus, apiFailedStatus, CustomHostnameStatus.mk.injEq]

/-- C4 amended: for a configured client, a non-success lookup response whose
body parses as JSON yields "API request failed"; the "Network error" status is
produced when the call throws at transport level and also when the response
body fails to parse as JSON (regardless of HTTP status). -/
theorem c4_lookup_error_mapping (f : Transport) (env : Env) (hostname : String)
    (hc : isApiConfigured env = true) :
    (∀ body, f (lookupRequest env hostname) = .resp false (some body) →
      getCustomHostnameStatus f env hostname =
        .ret apiFailedStatus [lookupRequest env hostname]) ∧
    (f (lookupRequest env hostname) = .thrown →
      getCustomHostnameStatus f env hostname =
        .ret netErrorStatus [lookupRequest env hostname]) ∧
    (∀ ok, f (lookupRequest env hostname) = .resp ok none →
      getCustomHostnameStatus f env hostname =
        .ret netErrorStatus [lookupRequest env hostname]) := by
  refine ⟨fun body hb => ?_, fun ht => ?_, fun ok hb => ?_⟩ <;>
    unfold getCustomHostnameStatus statusTry <;> simp [hc, *]

/-- Witness for C4 amended: a non-success response with a JSON-parseable body
(`null`) yields "API request failed". -/
theorem c4_lookup_error_mapping_witness :
    getCustomHostnameStatus failNullBody env0 "s.example" =
      .ret apiFailedStatus [lookupRequest env0 "s.example"] :=
  (c4_lookup_error_mapping failNullBody env0 "s.example" rfl).1 .null rfl

/-- On a truthy `ssl` value the SSL ternary never throws and produces the
sub-object with the `method || validation_method` choice and defaulted
sequences. -/
lemma projectSsl_of_truthy (sslv : Json) (h : jsTruthy sslv = true) :
    projectSsl sslv = .ok (some
      { status := jsFieldD sslv "status",
        validation_method := jsOr (jsFieldD sslv "method")
          (jsFieldD sslv "validation_method"),
        validation_errors := jsOr (jsFieldD sslv "validation_errors") (.arr []),
        validation_records := jsOr (jsFieldD sslv "validation_records") (.arr []) }) := by
  unfold projectSsl
  rw [jsGet_eq_ok_of_truthy _ "status" h, jsGet_eq_ok_of_truthy _ "method" h,
      jsGet_eq_ok_of_truthy _ "validation_method" h,
      jsGet_eq_ok_of_truthy _ "validation_errors" h,
      jsGet_eq_ok_of_truthy _ "validation_records" h]
  simp [h]

/-- On a falsy `ssl` value the ternary yields no SSL sub-object. -/
lemma projectSsl_of_falsy (sslv : Json) (h : jsTruthy sslv = false) :
    projectSsl sslv = .ok none := by
  simp [projectSsl, h]

/-- Projecting an object record never throws: `status` is copied verbatim,
the SSL ternary keys on the record's `ssl` field, and `verification_errors`
is defaulted. -/
lemma projectRecord_obj (fields : List (String × Json)) :
    projectRecord (.obj fields) = .ok
      { status := objGet fields "status",
        ssl :=
          if jsTruthy (objGet fields "ssl") then
            some { status := jsFieldD (objGet fields "ssl") "status",
                   validation_method := jsOr (jsFieldD (objGet fields "ssl") "method")
                     (jsFieldD (objGet fields "ssl") "validation_method"),
                   validation_errors :=
                     jsOr (jsFieldD (objGet fields "ssl") "validation_errors") (.arr []),
                   validation_records :=
                     jsOr (jsFieldD (objGet fields "ssl") "validation_records") (.arr []) }
          else none,
        verification_errors := some (jsOr (objGet fields "verification_errors") (.arr [])) } := by
  have hs : ∀ k, jsGet (Json.obj fields) k = .ok (objGet fields k) := fun _ => rfl
  cases ht : jsTruthy (objGet fields "ssl") with
  | true => simp [projectRecord, hs, projectSsl_of_truthy _ ht, ht]
  | false => simp [projectRecord, hs, projectSsl_of_falsy _ ht, ht]

/-- C6: for a configured client, when the lookup succeeds with a non-empty
result list whose first record is an object, the result projects that record:
`status` copied verbatim without validation, the SSL sub-object present iff
the record's `ssl` is truthy with `validation_method` from
`method || validation_method` (first truthy wins) and sequences defaulted to
empty, and `verification_errors` defaulted to empty. -/
theorem c6_first_record_projection (f : Transport) (env : Env) (hostname : String)
    (body : Json) (fields : List (String × Json)) (rest : List Json)
    (hc : isApiConfigured env = true)
    (hf : f (lookupRequest env hostname) = .resp true (some body))
    (hr : jsGet body "result" = .ok (.arr (.obj fields :: rest))) :
    getCustomHostnameStatus f env hostname = .ret
      { status := objGet fields "status",
        ssl :=
          if jsTruthy (objGet fields "ssl") then
            some { status := jsFieldD (objGet fields "ssl") "status",
                   validation_method := jsOr (jsFieldD (objGet fields "ssl") "method")
                     (jsFieldD (objGet fields "ssl") "validation_method"),
                   validation_errors :=
                     jsOr (jsFieldD (objGet fields "ssl") "validation_errors") (.arr []),
                   validation_records :=
                     jsOr (jsFieldD (objGet fields "ssl") "validation_records") (.arr []) }
          else none,
        verification_errors := some (jsOr (objGet fields "verification_errors") (.arr [])) }
      [lookupRequest env hostname] := by
  unfold getCustomHostnameStatus statusTry
  simp only [hc, if_true]
  have htr : jsTruthy (Json.arr (Json.obj fields :: rest)) = true := rfl
  have hlen : jsGet (Json.arr (Json.obj fields :: rest)) "length" =
      .ok (.num ((Json.obj fields :: rest).length : Int)) := by
    simp [jsGet]
  have hz : jsIsZero (Json.num ((rest.length : Int) + 1)) = false := by
    simp [jsIsZero]
    omega
  have hidx : jsIndex (Json.arr (Json.obj fields :: rest)) 0 = .ok (Json.obj fields) := rfl
  simp [hf, hr, htr, hlen, hz, hidx, projectRecord_obj]

/-- Witness for C6 at the spec's sample input: the record
`{id:"x", status:"pending", ssl:{status:"pending_validation", method:"http"}}`
projects to `{status:"pending", ssl:{status:"pending_validation",
validation_method:"http", validation_errors:[], validation_records:[]},
verification_errors:[]}`. -/
theorem c6_first_record_projection_witness :
    getCustomHostnameStatus sampleTransport env0 "shop.example" = .ret
      { status := .str "pending",
        ssl := some { status := .str "pending_validation",
                      validation_method := .str "http",
                      validation_errors := .arr [],
                      validation_records := .arr [] },
        verification_errors := some (.arr []) }
      [lookupRequest env0 "shop.example"] ∧
    getCustomHostnameStatus sampleTransport env0 "shop.example" = .ret
      { status := objGet sampleFields "status",
        ssl :=
          if jsTruthy (objGet sampleFields "ssl") then
            some { status := jsFieldD (objGet sampleFields "ssl") "status",
                   validation_method := jsOr (jsFieldD (objGet sampleFields "ssl") "method")
                     (jsFieldD (objGet sampleFields "ssl") "validation_method"),
                   validation_errors :=
                     jsOr (jsFieldD (objGet sampleFields "ssl") "validation_errors") (.arr []),
                   validation_records :=
                     jsOr (jsFieldD (objGet sampleFields "ssl") "validation_records") (.arr []) }
          else none,
        verification_errors := some (jsOr (objGet sampleFields "verification_errors") (.arr [])) }
      [lookupRequest env0 "shop.example"] :=
  ⟨rfl, c6_first_record_projection sampleTransport env0 "shop.example"
    sampleBody sampleFields [] rfl rfl rfl⟩

/-- C5 counterexample: a lookup answering with TWO records still leads to a
successful deletion of the first record's id and a `true` result — refuting
the claim that `true` requires the lookup to find exactly one record. -/
theorem c5_counterexample_two_records :
    deleteCustomHostname twoRecordTransport env0 "h.example" =
      .ret true [lookupRequest env0 "h.example", deleteRequest env0 (.str "a")] ∧
    twoRecordTransport (lookupRequest env0 "h.example") =
      .resp true (some twoRecordBody) ∧
    jsGet twoRecordBody "result" =
      .ok (.arr [.obj [("id", .str "a")], .obj [("id", .str "b")]]) :=
  ⟨rfl, rfl, rfl⟩

/-- C5 amended: for a configured client, `deleteCustomHostname` returns
`false` after exactly one network call when the lookup throws, has an
unparseable body, has a non-success status, or returns an empty result list
(no DELETE is ever issued in those cases); and it returns `true` iff the
lookup succeeds with a truthy, non-empty result list and the DELETE addressed
by the FIRST record's id (not necessarily the only record) receives an HTTP
success status. -/
theorem c5_delete_gate_and_true_iff (f : Transport) (env : Env) (hostname : String)
    (hc : isApiConfigured env = true) :
    (f (lookupRequest env hostname) = .thrown →
      deleteCustomHostname f env hostname = .ret false [lookupRequest env hostname]) ∧
    (∀ ok, f (lookupRequest env hostname) = .resp ok none →
      deleteCustomHostname f env hostname = .ret false [lookupRequest env hostname]) ∧
    (∀ body, f (lookupRequest env hostname) = .resp false (some body) →
      deleteCustomHostname f env hostname = .ret false [lookupRequest env hostname]) ∧
    (∀ body, f (lookupRequest env hostname) = .resp true (some body) →
      jsGet body "result" = .ok (.arr []) →
      deleteCustomHostname f env hostname = .ret false [lookupRequest env hostname]) ∧
    ((∃ reqs, deleteCustomHostname f env hostname = .ret true reqs) ↔
      (∃ body rr lv hd idv b2,
        f (lookupRequest env hostname) = .resp true (some body) ∧
        jsGet body "result" = .ok rr ∧ jsTruthy rr = true ∧
        jsGet rr "length" = .ok lv ∧ jsIsZero lv = false ∧
        jsIndex rr 0 = .ok hd ∧ jsGet hd "id" = .ok idv ∧
        f (deleteRequest env idv) = .resp true b2)) := by
  have e1 : jsTruthy (Json.arr []) = true := rfl
  have e2 : jsGet (Json.arr []) "length" = .ok (.num 0) := rfl
  have e3 : jsIsZero (Json.num 0) = true := rfl
  refine ⟨fun ht => ?_, fun ok hb => ?_, fun body hb => ?_, fun body hb hr => ?_, ?_, ?_⟩
  · simp [deleteCustomHostname, deleteTry, hc, ht]
  · simp [deleteCustomHostname, deleteTry, hc, hb]
  · simp [deleteCustomHostname, deleteTry, hc, hb]
  · simp [deleteCustomHostname, deleteTry, hc, hb, hr, e1, e2, e3]
  · rintro ⟨reqs, hret⟩
    unfold deleteCustomHostname deleteTry at hret
    simp only [hc, if_true] at hret
    cases h1 : f (lookupRequest env hostname) with
    | thrown => rw [h1] at hret; simp at hret
    | resp ok body =>
      rw [h1] at hret
      cases body with
      | none => simp at hret
      | some listResult =>
        cases ok with
        | false => simp at hret
        | true =>
          simp only [Bool.not_true, Bool.false_eq_true, if_false] at hret
          cases h2 : jsGet listResult "result" with
          | error e => rw [h2] at hret; simp at hret
          | ok rr =>
            rw [h2] at hret
            cases h3 : jsTruthy rr with
            | false => simp [h3] at hret
            | true =>
              simp only [h3, Bool.not_true, Bool.false_eq_true, if_false] at hret
              cases h4 : jsGet rr "length" with
              | error e => rw [h4] at hret; simp at hret
              | ok lv =>
                rw [h4] at hret
                cases h5 : jsIsZero lv with
                | true => simp [h5] at hret
                | false =>
                  simp only [h5, Bool.false_eq_true, if_false] at hret
                  cases h6 : jsIndex rr 0 with
                  | error e => rw [h6] at hret; simp at hret
                  | ok hd =>
                    rw [h6] at hret
                    cases h7 : jsGet hd "id" with
                    | error e => simp [h7] at hret
                    | ok idv =>
                      simp only [h7] at hret
                      cases h8 : f (deleteRequest env idv) with
                      | thrown => simp [h8] at hret
                      | resp ok2 b2 =>
                        simp only [h8, Outcome.ret.injEq] at hret
                        obtain ⟨hok2, -⟩ := hret
                        subst hok2
                        exact ⟨listResult, rr, lv, hd, idv, b2,
                               rfl, h2, h3, h4, h5, h6, h7, h8⟩
  · rintro ⟨body, rr, lv, hd, idv, b2, h1, h2, h3, h4, h5, h6, h7, h8⟩
    refine ⟨[lookupRequest env hostname, deleteRequest env idv], ?_⟩
    simp [deleteCustomHostname, deleteTry, hc, h1, h2, h3, h4, h5, h6, h7, h8]

/-- Witness for C5 amended: an empty result list produces `false` after the
single lookup call, with no DELETE issued. -/
theorem c5_delete_gate_and_true_iff_witness :
    deleteCustomHostname emptyResultTransport env0 "d.example" =
      .ret false [lookupRequest env0 "d.example"] :=
  (c5_delete_gate_and_true_iff emptyResultTransport env0 "d.example" rfl).2.2.2.1
    (.obj [("result", .arr [])]) rfl rfl

/-- C9 counterexample: the remote status string is copied verbatim, so a
remote record `{status:"not_found", ssl:{status:"x"}}` yields a result whose
status is "not_found" AND which carries an SSL sub-record — refuting the
claim that a "not_found" result never carries one. -/
theorem c9_counterexample_remote_not_found_with_ssl :
    getCustomHostnameStatus remoteNotFoundTransport env0 "n.example" = .ret
      { status := .str "not_found",
        ssl := some { status := .str "x", validation_method := .undefined,
                      validation_errors := .arr [], validation_records := .arr [] },
        verification_errors := some (.arr []) }
      [lookupRequest env0 "n.example"] ∧
    (some { status := .str "x", validation_method := .undefined,
            validation_errors := .arr [], validation_records := .arr [] } :
      Option SslInfo) ≠ none :=
  ⟨rfl, by simp⟩

/-- C9 amended: a result of `getCustomHostnameStatus` carries an SSL
sub-record only when it projects an underlying remote record whose `ssl`
field is truthy; in particular every "not_found" or "error" result produced
without such a record (unconfigured, transport throw, unparseable body,
non-success status, empty result list) carries none. -/
theorem c9_ssl_only_from_remote_record (f : Transport) (env : Env)
    (hostname : String) (st : CustomHostnameStatus) (reqs : List Request)
    (h : getCustomHostnameStatus f env hostname = .ret st reqs)
    (hssl : st.ssl ≠ none) :
    ∃ body rr lv hd sslv,
      f (lookupRequest env hostname) = .resp true (some body) ∧
      jsGet body "result" = .ok rr ∧ jsTruthy rr = true ∧
      jsGet rr "length" = .ok lv ∧ jsIsZero lv = false ∧
      jsIndex rr 0 = .ok hd ∧
      jsGet hd "ssl" = .ok sslv ∧ jsTruthy sslv = true := by
  by_cases hc : isApiConfigured env = true
  case neg =>
    simp only [getCustomHostnameStatus, hc, if_false, Bool.false_eq_true,
      Outcome.ret.injEq] at h
    rw [← h.1] at hssl
    simp [notConfiguredStatus] at hssl
  case pos =>
    unfold getCustomHostnameStatus statusTry at h
    simp only [hc, if_true] at h
    cases h1 : f (lookupRequest env hostname) with
    | thrown =>
      rw [h1] at h
      simp only [Outcome.ret.injEq] at h
      rw [← h.1] at hssl
      simp [netErrorStatus] at hssl
    | resp ok body =>
      rw [h1] at h
      cases body with
      | none =>
        simp only [Outcome.ret.injEq] at h
        rw [← h.1] at hssl
        simp [netErrorStatus] at hssl
      | some result =>
        cases ok with
        | false =>
          simp only [Bool.not_false, if_true, Outcome.ret.injEq] at h
          rw [← h.1] at hssl
          simp [apiFailedStatus] at hssl
        | true =>
          simp only [Bool.not_true, Bool.false_eq_true, if_false] at h
          cases h2 : jsGet result "result" with
          | error e =>
            rw [h2] at h
            simp only [Outcome.ret.injEq] at h
            rw [← h.1] at hssl
            simp [netErrorStatus] at hssl
          | ok rr =>
            rw [h2] at h
            cases h3 : jsTruthy rr with
            | false =>
              simp only [h3, Bool.not_false, if_true, Outcome.ret.injEq] at h
              rw [← h.1] at hssl
              simp [notFoundStatus] at hssl
            | true =>
              simp only [h3, Bool.not_true, Bool.false_eq_true, if_false] at h
              cases h4 : jsGet rr "length" with
              | error e =>
                rw [h4] at h
                simp only [Outcome.ret.injEq] at h
                rw [← h.1] at hssl
                simp [netErrorStatus] at hssl
              | ok lv =>
                rw [h4] at h
                cases h5 : jsIsZero lv with
                | true =>
                  simp only [h5, if_true, Outcome.ret.injEq] at h
                  rw [← h.1] at hssl
                  simp [notFoundStatus] at hssl
                | false =>
                  simp only [h5, Bool.false_eq_true, if_false] at h
                  cases h6 : jsIndex rr 0 with
                  | error e =>
                    rw [h6] at h
                    simp only [Outcome.ret.injEq] at h
                    rw [← h.1] at hssl
                    simp [netErrorStatus] at hssl
                  | ok hd =>
                    rw [h6] at h
                    cases h7 : jsGet hd "status" with
                    | error e =>
                      simp only [projectRecord, h7, Outcome.ret.injEq] at h
                      rw [← h.1] at hssl
                      simp [netErrorStatus] at hssl
                    | ok stv =>
                      cases h8 : jsGet hd "ssl" with
                      | error e =>
                        simp only [projectRecord, h7, h8, Outcome.ret.injEq] at h
                        rw [← h.1] at hssl
                        simp [netErrorStatus] at hssl
                      | ok sslv =>
                        cases hts : jsTruthy sslv with
                        | false =>
                          have h9 := projectSsl_of_falsy sslv hts
                          cases h10 : jsGet hd "verification_errors" with
                          | error e =>
                            simp only [projectRecord, h7, h8, h9, h10,
                              Outcome.ret.injEq] at h
                            rw [← h.1] at hssl
                            simp [netErrorStatus] at hssl
                          | ok verr =>
                            simp only [projectRecord, h7, h8, h9, h10,
                              Outcome.ret.injEq] at h
                            rw [← h.1] at hssl
                            simp at hssl
                        | true =>
                          cases h10 : jsGet hd "verification_errors" with
                          | error e =>
                            have h9 := projectSsl_of_truthy sslv hts
                            simp only [projectRecord, h7, h8, h9, h10,
                              Outcome.ret.injEq] at h
                            rw [← h.1] at hssl
                            simp [netErrorStatus] at hssl
                          | ok verr =>
                            exact ⟨result, rr, lv, hd, sslv,
                                   rfl, h2, h3, h4, h5, h6, h8, hts⟩

/-- Witness for C9 amended, at the sample transport whose result carries an
SSL sub-record. -/
theorem c9_ssl_only_from_remote_record_witness :
    ∃ body rr lv hd sslv,
      sampleTransport (lookupRequest env0 "w9.example") = .resp true (some body) ∧
      jsGet body "result" = .ok rr ∧ jsTruthy rr = true ∧
      jsGet rr "length" = .ok lv ∧ jsIsZero lv = false ∧
      jsIndex rr 0 = .ok hd ∧
      jsGet hd "ssl" = .ok sslv ∧ jsTruthy sslv = true :=
  c9_ssl_only_from_remote_record sampleTransport env0 "w9.example"
    { status := .str "pending",
      ssl := some { status := .str "pending_validation",
                    validation_method := .str "http",
                    validation_errors := .arr [],
                    validation_records := .arr [] },
      verification_errors := some (.arr []) }
    [lookupRequest env0 "w9.example"] rfl (by simp)

/-- The value of the first query parameter of a URL, per standard URL
parsing: take what follows the first `?`, truncate at the fragment marker
`#`, cut at the first parameter separator `&`, and keep what follows the
first `=`. -/
def queryValue (url : String) : String :=
  let afterQ := (url.data.dropWhile (fun c => c != '?')).drop 1
  let noFrag := afterQ.takeWhile (fun c => c != '#')
  let firstParam := noFrag.takeWhile (fun c => c != '&')
  String.mk ((firstParam.dropWhile (fun c => c != '=')).drop 1)

lemma dropWhileAppendAll {p : Char → Bool} {xs ys : List Char}
    (h : ∀ x ∈ xs, p x = true) :
    (xs ++ ys).dropWhile p = ys.dropWhile p := by
  induction xs with
  | nil => rfl
  | cons a t ih =>
    have ha : p a = true := h a (List.mem_cons_self a t)
    simp only [List.cons_append, List.dropWhile_cons, ha, if_true]
    exact ih (fun x hx => h x (List.mem_cons_of_mem a hx))

lemma takeWhileAppendAll {p : Char → Bool} {xs ys : List Char}
    (h : ∀ x ∈ xs, p x = true) :
    (xs ++ ys).takeWhile p = xs ++ ys.takeWhile p := by
  induction xs with
  | nil => rfl
  | cons a t ih =>
    have ha : p a = true := h a (List.mem_cons_self a t)
    simp only [List.cons_append, List.takeWhile_cons, ha, if_true, List.cons.injEq,
      true_and]
    exact ih (fun x hx => h x (List.mem_cons_of_mem a hx))

/-- Parsing the first query parameter of the concatenated lookup URL: the
recovered value is the hostname truncated at its first `#` and `&`. -/
lemma queryValue_lookup (z hostname : String)
    (hz : ∀ c ∈ z.data, (c != '?') = true) :
    queryValue (apiBase ++ z ++ "/custom_hostnames?hostname=" ++ hostname) =
      String.mk ((hostname.data.takeWhile (fun c => c != '#')).takeWhile
        (fun c => c != '&')) := by
  have hA : ∀ c ∈ apiBase.data, (c != '?') = true := by decide
  have hm1 : ∀ c ∈ ("/custom_hostnames").data, (c != '?') = true := by decide
  have hm : ("/custom_hostnames?hostname=").data =
      "/custom_hostnames".data ++ '?' :: "hostname=".data := rfl
  have hsplit : (apiBase ++ z ++ "/custom_hostnames?hostname=" ++ hostname).data =
      apiBase.data ++ (z.data ++ ("/custom_hostnames".data ++
        ('?' :: ("hostname=".data ++ hostname.data)))) := by
    simp [String.data_append, hm]
  simp only [queryValue]
  rw [hsplit, dropWhileAppendAll hA, dropWhileAppendAll hz, dropWhileAppendAll hm1,
      List.dropWhile_cons_of_neg (by decide)]
  simp only [List.drop_succ_cons, List.drop_zero]
  rw [takeWhileAppendAll (by decide), takeWhileAppendAll (by decide)]
  have hsplit2 : ("hostname=").data ++
        ((hostname.data.takeWhile (fun c => c != '#')).takeWhile (fun c => c != '&')) =
      "hostname".data ++
        ('=' :: ((hostname.data.takeWhile (fun c => c != '#')).takeWhile
          (fun c => c != '&'))) := by
    have h9 : ("hostname=").data = "hostname".data ++ ['='] := rfl
    simp [h9]
  rw [hsplit2, dropWhileAppendAll (by decide),
      List.dropWhile_cons_of_neg (by decide)]
  simp only [List.drop_succ_cons, List.drop_zero]

/-- C10: in both `getCustomHostnameStatus` and `deleteCustomHostname` the
first issued request is the lookup request, whose URL is the fixed prefix
concatenated with the caller-supplied hostname verbatim (no URL encoding);
consequently, for any hostname containing a query metacharacter `&` or `#`,
parsing the issued URL recovers a hostname parameter different from the
literal hostname. -/
theorem c10_lookup_url_verbatim (f : Transport) (env : Env) (hostname : String)
    (hc : isApiConfigured env = true)
    (hz : ∀ c ∈ (zoneStr env).data, (c != '?') = true) :
    (lookupRequest env hostname).url =
      apiBase ++ zoneStr env ++ "/custom_hostnames?hostname=" ++ hostname ∧
    (getCustomHostnameStatus f env hostname).reqs.head? =
      some (lookupRequest env hostname) ∧
    (deleteCustomHostname f env hostname).reqs.head? =
      some (lookupRequest env hostname) ∧
    (('&' ∈ hostname.data ∨ '#' ∈ hostname.data) →
      queryValue (lookupRequest env hostname).url ≠ hostname) := by
  refine ⟨rfl, ?_, ?_, ?_⟩
  · obtain ⟨st, hs⟩ := statusShape f env hostname hc
    rw [hs]
    rfl
  · obtain ⟨b, reqs, hdel, hh⟩ := deleteShape f env hostname hc
    rw [hdel]
    exact hh
  · intro hmem heq
    have hq : queryValue (lookupRequest env hostname).url =
        String.mk ((hostname.data.takeWhile (fun c => c != '#')).takeWhile
          (fun c => c != '&')) :=
      queryValue_lookup (zoneStr env) hostname hz
    rw [hq] at heq
    have hdata : ((hostname.data.takeWhile (fun c => c != '#')).takeWhile
        (fun c => c != '&')) = hostname.data := congrArg String.data heq
    rcases hmem with hmem | hmem
    · rw [← hdata] at hmem
      have h2 := List.mem_takeWhile_imp hmem
      simp at h2
    · rw [← hdata] at hmem
      have h2 : '#' ∈ hostname.data.takeWhile (fun c => c != '#') :=
        (List.takeWhile_sublist _).mem hmem
      have h3 := List.mem_takeWhile_imp h2
      simp at h3

/-- Witness for C10 at the hostname `a&evil=1`, which smuggles an extra query
parameter: the recovered hostname parameter is not the literal hostname. -/
theorem c10_lookup_url_verbatim_witness :
    (lookupRequest env0 "a&evil=1").url =
      apiBase ++ zoneStr env0 ++ "/custom_hostnames?hostname=" ++ "a&evil=1" ∧
    (getCustomHostnameStatus alwaysThrown env0 "a&evil=1").reqs.head? =
      some (lookupRequest env0 "a&evil=1") ∧
    (deleteCustomHostname alwaysThrown env0 "a&evil=1").reqs.head? =
      some (lookupRequest env0 "a&evil=1") ∧
    queryValue (lookupRequest env0 "a&evil=1").url ≠ "a&evil=1" := by
  have h := c10_lookup_url_verbatim alwaysThrown env0 "a&evil=1" rfl (by decide)
  exact ⟨h.1, h.2.1, h.2.2.1, h.2.2.2 (Or.inl (by decide))⟩
